import Mathlib

/-!
Verification of the request-validation / prompt-templating / response-relay
core of the STEM video-bot backend.  The authoritative server implementation
is the hardened Express server embedded in `src/README.md` (zod schemas
`CharacterReq`, `CharacterRes`, `StoryReq`, `StoryRes`, helper
`safeParseJSON`, lazy client constructor `getOpenAI`, and the three POST
handlers).  The near-duplicate `src/server.js` is embedded separately for the
claims about it.  JSON values are modelled by an inductive type, the platform
primitive `JSON.parse` by a recursive-descent parser, and zod validation by
explicit field-by-field checking functions.
-/

/-- A JSON value as held by the JavaScript runtime after parsing: objects are
association lists of string keys (the parser collapses duplicate keys, last
occurrence winning, matching JavaScript object semantics). -/
inductive Json where
  | null : Json
  | bool (b : Bool) : Json
  | num (q : Rat) : Json
  | str (s : String) : Json
  | arr (elems : List Json) : Json
  | obj (fields : List (String × Json)) : Json

/-- Double-quote character. -/
def dquote : Char := Char.ofNat 34

/-- Backslash character. -/
def bslash : Char := Char.ofNat 92

/-- Opening curly brace character. -/
def lbrace : Char := Char.ofNat 123

/-- Closing curly brace character. -/
def rbrace : Char := Char.ofNat 125

/-- Drop leading JSON whitespace. -/
def skipWs : List Char → List Char
  | [] => []
  | c :: cs =>
    if c = ' ' ∨ c = Char.ofNat 9 ∨ c = Char.ofNat 10 ∨ c = Char.ofNat 13 then skipWs cs
    else c :: cs

/-- Value of a single decimal digit character. -/
def digitVal (c : Char) : Option Nat :=
  if c.isDigit then some (c.toNat - 48) else none

/-- Value of a single hexadecimal digit character. -/
def hexVal (c : Char) : Option Nat :=
  if c.isDigit then some (c.toNat - 48)
  else if 97 ≤ c.toNat ∧ c.toNat ≤ 102 then some (c.toNat - 87)
  else if 65 ≤ c.toNat ∧ c.toNat ≤ 70 then some (c.toNat - 55)
  else none

/-- Take a maximal run of decimal digits. -/
def takeDigits : List Char → List Nat × List Char
  | [] => ([], [])
  | c :: cs =>
    match digitVal c with
    | some d => let p := takeDigits cs; (d :: p.1, p.2)
    | none => ([], c :: cs)

/-- Combine a digit run into a natural number. -/
def natOfDigits (ds : List Nat) : Nat := ds.foldl (fun a d => a * 10 + d) 0

/-- Translation of a single-character JSON string escape. -/
def escChar (c : Char) : Option Char :=
  if c = dquote then some dquote
  else if c = bslash then some bslash
  else if c = '/' then some '/'
  else if c = 'n' then some (Char.ofNat 10)
  else if c = 't' then some (Char.ofNat 9)
  else if c = 'r' then some (Char.ofNat 13)
  else if c = 'b' then some (Char.ofNat 8)
  else if c = 'f' then some (Char.ofNat 12)
  else none

/-- Parse the body of a JSON string literal (opening quote consumed),
returning the decoded string and the remaining input. -/
def parseStringBody : Nat → List Char → Option (String × List Char)
  | 0, _ => none
  | _, [] => none
  | fuel + 1, c :: cs =>
    if c = dquote then some ("", cs)
    else if c = bslash then
      match cs with
      | [] => none
      | e :: cs2 =>
        match escChar e with
        | some ec =>
          (parseStringBody fuel cs2).map (fun p => (String.singleton ec ++ p.1, p.2))
        | none =>
          if e = 'u' then
            match cs2 with
            | h1 :: h2 :: h3 :: h4 :: cs3 =>
              match hexVal h1, hexVal h2, hexVal h3, hexVal h4 with
              | some a, some b, some c2, some d =>
                (parseStringBody fuel cs3).map
                  (fun p => (String.singleton (Char.ofNat (((a * 16 + b) * 16 + c2) * 16 + d)) ++ p.1, p.2))
              | _, _, _, _ => none
            | _ => none
          else none
    else (parseStringBody fuel cs).map (fun p => (String.singleton c ++ p.1, p.2))

/-- Parse a JSON number (sign, integer part, optional fraction, optional
exponent), returning its exact rational value and the remaining input. -/
def parseNumber (cs : List Char) : Option (Rat × List Char) :=
  let signed : Bool × List Char :=
    match cs with
    | c :: rest => if c = '-' then (true, rest) else (false, cs)
    | [] => (false, [])
  let ip := takeDigits signed.2
  if ip.1.isEmpty then none
  else
    let fp : Option (List Nat × List Char) :=
      match ip.2 with
      | c :: rest =>
        if c = '.' then
          let f := takeDigits rest
          if f.1.isEmpty then none else some f
        else some ([], ip.2)
      | [] => some ([], [])
    match fp with
    | none => none
    | some f =>
      let ex : Option (Bool × List Nat × List Char) :=
        match f.2 with
        | c :: rest =>
          if c = 'e' ∨ c = 'E' then
            match rest with
            | c2 :: rest2 =>
              let er :=
                if c2 = '-' then takeDigits rest2
                else if c2 = '+' then takeDigits rest2
                else takeDigits rest
              if er.1.isEmpty then none else some (c2 = '-', er.1, er.2)
            | [] => none
          else some (false, [], f.2)
        | [] => some (false, [], [])
      match ex with
      | none => none
      | some e =>
        let base : Nat := natOfDigits ip.1 * 10 ^ f.1.length + natOfDigits f.1
        let n : Int := if signed.1 then -(base : Int) else (base : Int)
        let q : Rat :=
          if e.1 then mkRat n (10 ^ f.1.length * 10 ^ natOfDigits e.2.1)
          else mkRat (n * 10 ^ natOfDigits e.2.1) (10 ^ f.1.length)
        some (q, e.2.2)

/-- Insert a key into an object under construction, replacing an existing
binding in place (JavaScript duplicate-key semantics: last value wins). -/
def setField (fields : List (String × Json)) (k : String) (v : Json) : List (String × Json) :=
  match fields with
  | [] => [(k, v)]
  | (k0, v0) :: rest => if k0 = k then (k0, v) :: rest else (k0, v0) :: setField rest k v

mutual

/-- Modelled from the spec: the platform primitive `JSON.parse` used by
`safeParseJSON`, as a fuel-indexed recursive-descent parser over the JSON
grammar (value, array, object). -/
def parseValue : Nat → List Char → Option (Json × List Char)
  | 0, _ => none
  | fuel + 1, cs =>
    match skipWs cs with
    | [] => none
    | c :: rest =>
      if c = dquote then
        (parseStringBody (rest.length + 1) rest).map (fun p => (Json.str p.1, p.2))
      else if c = lbrace then
        match skipWs rest with
        | c2 :: rest2 => if c2 = rbrace then some (Json.obj [], rest2) else parseObjFields fuel (skipWs rest) []
        | [] => none
      else if c = '[' then
        match skipWs rest with
        | c2 :: rest2 => if c2 = ']' then some (Json.arr [], rest2) else parseArrElems fuel (skipWs rest) []
        | [] => none
      else if c = 't' then
        match rest with
        | 'r' :: 'u' :: 'e' :: rest2 => some (Json.bool true, rest2)
        | _ => none
      else if c = 'f' then
        match rest with
        | 'a' :: 'l' :: 's' :: 'e' :: rest2 => some (Json.bool false, rest2)
        | _ => none
      else if c = 'n' then
        match rest with
        | 'u' :: 'l' :: 'l' :: rest2 => some (Json.null, rest2)
        | _ => none
      else if c = '-' ∨ c.isDigit then
        (parseNumber (c :: rest)).map (fun p => (Json.num p.1, p.2))
      else none

/-- Parse the remaining elements of a non-empty JSON array. -/
def parseArrElems : Nat → List Char → List Json → Option (Json × List Char)
  | 0, _, _ => none
  | fuel + 1, cs, acc =>
    match parseValue fuel cs with
    | none => none
    | some (v, cs2) =>
      match skipWs cs2 with
      | ',' :: cs3 => parseArrElems fuel cs3 (acc ++ [v])
      | ']' :: cs3 => some (Json.arr (acc ++ [v]), cs3)
      | _ => none

/-- Parse the remaining members of a non-empty JSON object. -/
def parseObjFields : Nat → List Char → List (String × Json) → Option (Json × List Char)
  | 0, _, _ => none
  | fuel + 1, cs, acc =>
    match skipWs cs with
    | c :: rest =>
      if c = dquote then
        match parseStringBody (rest.length + 1) rest with
        | none => none
        | some (k, cs2) =>
          match skipWs cs2 with
          | ':' :: cs3 =>
            match parseValue fuel cs3 with
            | none => none
            | some (v, cs4) =>
              match skipWs cs4 with
              | ',' :: cs5 => parseObjFields fuel cs5 (setField acc k v)
              | c5 :: cs5 => if c5 = rbrace then some (Json.obj (setField acc k v), cs5) else none
              | [] => none
          | _ => none
      else none
    | [] => none

end

/-- Modelled from the spec: `JSON.parse` on a string, succeeding only when the
whole input is one JSON value (possibly surrounded by whitespace). -/
def parseJSON (s : String) : Option Json :=
  match parseValue (2 * s.length + 16) s.toList with
  | some (v, rest) => if skipWs rest = [] then some v else none
  | none => none

/-- Decimal rendering of a JSON number as JavaScript template interpolation
renders it; every number interpolated by this server is a validated integer. -/
def numToString (q : Rat) : String :=
  if q.den = 1 then toString q.num else toString q.num ++ "/" ++ toString q.den

/-- Hexadecimal digit character (lowercase), for control-character escapes. -/
def hexDigit (n : Nat) : Char :=
  if n < 10 then Char.ofNat (48 + n) else Char.ofNat (87 + n)

/-- Escape one character the way `JSON.stringify` does inside a string. -/
def escapeJsonChar (c : Char) : String :=
  if c = dquote then String.singleton bslash ++ String.singleton dquote
  else if c = bslash then String.singleton bslash ++ String.singleton bslash
  else if c = Char.ofNat 8 then String.singleton bslash ++ "b"
  else if c = Char.ofNat 9 then String.singleton bslash ++ "t"
  else if c = Char.ofNat 10 then String.singleton bslash ++ "n"
  else if c = Char.ofNat 12 then String.singleton bslash ++ "f"
  else if c = Char.ofNat 13 then String.singleton bslash ++ "r"
  else if c.toNat < 32 then
    String.singleton bslash ++ "u00" ++ String.singleton (hexDigit (c.toNat / 16)) ++
      String.singleton (hexDigit (c.toNat % 16))
  else String.singleton c

/-- Render a string as a quoted JSON string literal, as `JSON.stringify` does. -/
def quoteStr (s : String) : String :=
  String.singleton dquote ++ String.join (s.toList.map escapeJsonChar) ++ String.singleton dquote

mutual

/-- Modelled from the spec: the platform primitive `JSON.stringify`
(without indentation), used to frame streamed content and to serialize JSON
response bodies. -/
def jsonStringify : Json → String
  | Json.null => "null"
  | Json.bool true => "true"
  | Json.bool false => "false"
  | Json.num q => numToString q
  | Json.str s => quoteStr s
  | Json.arr xs => "[" ++ stringifyElems xs ++ "]"
  | Json.obj fs => String.singleton lbrace ++ stringifyFields fs ++ String.singleton rbrace

/-- Comma-separated serialization of array elements. -/
def stringifyElems : List Json → String
  | [] => ""
  | [x] => jsonStringify x
  | x :: y :: xs => jsonStringify x ++ "," ++ stringifyElems (y :: xs)

/-- Comma-separated serialization of object members. -/
def stringifyFields : List (String × Json) → String
  | [] => ""
  | [(k, v)] => quoteStr k ++ ":" ++ jsonStringify v
  | (k, v) :: m :: fs => quoteStr k ++ ":" ++ jsonStringify v ++ "," ++ stringifyFields (m :: fs)

end

mutual

/-- Modelled from the spec: the JavaScript `String()` coercion applied to a
parsed JSON value — plain objects render as "[object Object]", arrays as the
join of their elements with "," — as used by `JSON.parse` on a non-string
argument and by `Array.prototype.join`. -/
def jsToString : Json → String
  | Json.null => "null"
  | Json.bool true => "true"
  | Json.bool false => "false"
  | Json.num q => numToString q
  | Json.str s => s
  | Json.arr xs => joinList "," xs
  | Json.obj _ => "[object Object]"

/-- Modelled from the spec: `Array.prototype.join` — null renders as the
empty string, every other element through the `String()` coercion. -/
def joinList (sep : String) : List Json → String
  | [] => ""
  | [x] => (match x with | Json.null => "" | v => jsToString v)
  | x :: y :: xs =>
    (match x with | Json.null => "" | v => jsToString v) ++ sep ++ joinList sep (y :: xs)

end

/-- `safeParseJSON` from the server in `src/README.md`: `JSON.parse` wrapped
in try/catch, `none` standing for the caught-exception `null` return. -/
def safeParseJSON (s : String) : Option Json := parseJSON s

/-- Look a key up in a parsed JSON object (JavaScript property access on an
object with unique keys). -/
def getField (fields : List (String × Json)) (k : String) : Option Json :=
  match fields with
  | [] => none
  | (k0, v) :: rest => if k0 = k then some v else getField rest k

/-- Property access on an arbitrary JSON value, `none` when the value is not
an object or lacks the key. -/
def Json.getF (j : Json) (k : String) : Option Json :=
  match j with
  | Json.obj fields => getField fields k
  | _ => none

/-- JavaScript truthiness of a parsed JSON value. -/
def jsTruthy : Json → Bool
  | Json.null => false
  | Json.bool b => b
  | Json.num q => q != 0
  | Json.str s => s ≠ ""
  | Json.arr _ => true
  | Json.obj _ => true

/-- zod `z.string()`: accept exactly JSON strings. -/
def vString (path : String) : Json → Except String String
  | Json.str s => Except.ok s
  | _ => Except.error ("Expected string at " ++ path)

/-- zod `z.string().min(n)`: a JSON string of length at least `n`. -/
def vStringMin (path : String) (n : Nat) : Json → Except String String
  | Json.str s =>
    if n ≤ s.length then Except.ok s
    else Except.error ("String must contain at least " ++ toString n ++ " character(s) at " ++ path)
  | _ => Except.error ("Expected string at " ++ path)

/-- zod `z.number()`: accept exactly JSON numbers. -/
def vNumber (path : String) : Json → Except String Rat
  | Json.num q => Except.ok q
  | _ => Except.error ("Expected number at " ++ path)

/-- zod `z.number().int().min(lo).max(hi)`: an integral JSON number within
the closed bound. -/
def vIntRange (path : String) (lo hi : Int) : Json → Except String Rat
  | Json.num q =>
    if q.den = 1 then
      if lo ≤ q.num ∧ q.num ≤ hi then Except.ok q
      else Except.error ("Number out of range at " ++ path)
    else Except.error ("Expected integer at " ++ path)
  | _ => Except.error ("Expected number at " ++ path)

/-- Validate every element of a list as a string (`z.array(z.string())`
element pass). -/
def vStringElems (path : String) : List Json → Except String (List String)
  | [] => Except.ok []
  | x :: xs => do
    let s ← vString path x
    let rest ← vStringElems path xs
    Except.ok (s :: rest)

/-- zod `z.array(z.string())`. -/
def vArrayString (path : String) : Json → Except String (List String)
  | Json.arr xs => vStringElems path xs
  | _ => Except.error ("Expected array at " ++ path)

/-- zod `z.array(z.any())`: any JSON array, elements untouched. -/
def vArrayAny (path : String) : Json → Except String (List Json)
  | Json.arr xs => Except.ok xs
  | _ => Except.error ("Expected array at " ++ path)

/-- An optional object field with a zod `.default(d)`: absent means the
default, present means the value must validate. -/
def optField {α : Type} (fields : List (String × Json)) (k : String) (d : α)
    (v : Json → Except String α) : Except String α :=
  match getField fields k with
  | none => Except.ok d
  | some j => v j

/-- A required object field: absent is a validation error. -/
def reqField {α : Type} (fields : List (String × Json)) (k : String)
    (v : Json → Except String α) : Except String α :=
  match getField fields k with
  | none => Except.error ("Required at " ++ k)
  | some j => v j

/-- The fully-populated value produced by the `CharacterReq` zod schema. -/
structure CharacterReqV where
  prompt : String
  audience : String
  style : String
  constraints : String
deriving DecidableEq, Repr

/-- `CharacterReq.parse` from `src/README.md`: every field optional with a
documented default; `prompt` additionally requires non-empty. -/
def characterReqParse : Json → Except String CharacterReqV
  | Json.obj fields => do
    let prompt ← optField fields "prompt" "Create a kid-friendly STEM character." (vStringMin "prompt" 1)
    let audience ← optField fields "audience" "ages 6–10" (vString "audience")
    let style ← optField fields "style" "bright 2D cartoon" (vString "style")
    let constr ← optField fields "constraints" "original; no resemblance to existing IP" (vString "constraints")
    Except.ok ⟨prompt, audience, style, constr⟩
  | _ => Except.error "Expected object"

/-- The validated value produced by the `CharacterRes` zod schema. -/
structure CharacterResV where
  name : String
  species_or_type : String
  visual_description : String
  personality : String
  catchphrases : List String
  strengths : List String
  quirks : List String
  stem_domain : String
  color_palette : List String
  do_not_copy : String
deriving DecidableEq, Repr

/-- `CharacterRes.parse` from `src/README.md`: required string fields, the
four array fields optional with default `[]`. -/
def characterResParse : Json → Except String CharacterResV
  | Json.obj fields => do
    let name ← reqField fields "name" (vString "name")
    let species ← reqField fields "species_or_type" (vString "species_or_type")
    let visual ← reqField fields "visual_description" (vString "visual_description")
    let personality ← reqField fields "personality" (vString "personality")
    let catchphrases ← optField fields "catchphrases" [] (vArrayString "catchphrases")
    let strengths ← optField fields "strengths" [] (vArrayString "strengths")
    let quirks ← optField fields "quirks" [] (vArrayString "quirks")
    let stem_domain ← reqField fields "stem_domain" (vString "stem_domain")
    let color_palette ← optField fields "color_palette" [] (vArrayString "color_palette")
    let do_not_copy ← reqField fields "do_not_copy" (vString "do_not_copy")
    Except.ok ⟨name, species, visual, personality, catchphrases, strengths, quirks, stem_domain, color_palette, do_not_copy⟩
  | _ => Except.error "Expected object"

/-- Serialization of a validated `CharacterRes` value as `res.json` emits it:
the schema's keys in schema order (zod strips unknown keys and rebuilds the
object from its shape). -/
def characterResToJson (r : CharacterResV) : Json :=
  Json.obj [("name", Json.str r.name),
    ("species_or_type", Json.str r.species_or_type),
    ("visual_description", Json.str r.visual_description),
    ("personality", Json.str r.personality),
    ("catchphrases", Json.arr (r.catchphrases.map Json.str)),
    ("strengths", Json.arr (r.strengths.map Json.str)),
    ("quirks", Json.arr (r.quirks.map Json.str)),
    ("stem_domain", Json.str r.stem_domain),
    ("color_palette", Json.arr (r.color_palette.map Json.str)),
    ("do_not_copy", Json.str r.do_not_copy)]

/-- The fully-populated value produced by the `StoryReq` zod schema. -/
structure StoryReqV where
  title : String
  topic : String
  target_age : String
  minutes : Rat
  characters : List Json
  moral : String
  educational_goals : List String

/-- `StoryReq.parse` from `src/README.md`: every field optional with a
documented default; `minutes` must be an integer in [1, 15]. -/
def storyReqParse : Json → Except String StoryReqV
  | Json.obj fields => do
    let title ← optField fields "title" "Adventure in Volcano Valley" (vString "title")
    let topic ← optField fields "topic" "volcano science" (vString "topic")
    let target_age ← optField fields "target_age" "6–10" (vString "target_age")
    let minutes ← optField fields "minutes" (mkRat 3 1) (vIntRange "minutes" 1 15)
    let characters ← optField fields "characters" [] (vArrayAny "characters")
    let moral ← optField fields "moral" "Curiosity + safety" (vString "moral")
    let goals ← optField fields "educational_goals"
      ["Basic volcano formation", "Safety around natural phenomena", "Scientific observation skills"]
      (vArrayString "educational_goals")
    Except.ok ⟨title, topic, target_age, minutes, characters, moral, goals⟩
  | _ => Except.error "Expected object"

/-- One validated scene of the `StoryRes` zod schema. -/
structure SceneV where
  setting : String
  action : String
  dialogue : String
  duration : Rat
deriving Repr

/-- The validated value produced by the `StoryRes` zod schema. -/
structure StoryResV where
  title : String
  opening : String
  scenes : List SceneV
  closing : String
  moral : String
  educational_goals : List String
  total_duration : Rat
deriving Repr

/-- The nested scene object schema inside `StoryRes`. -/
def sceneParse : Json → Except String SceneV
  | Json.obj fields => do
    let setting ← reqField fields "setting" (vString "setting")
    let action ← reqField fields "action" (vString "action")
    let dialogue ← reqField fields "dialogue" (vString "dialogue")
    let duration ← reqField fields "duration" (vNumber "duration")
    Except.ok ⟨setting, action, dialogue, duration⟩
  | _ => Except.error "Expected object at scenes"

/-- Validate every element of the `scenes` array. -/
def sceneListParse : List Json → Except String (List SceneV)
  | [] => Except.ok []
  | x :: xs => do
    let s ← sceneParse x
    let rest ← sceneListParse xs
    Except.ok (s :: rest)

/-- `StoryRes.parse` from `src/README.md`. -/
def storyResParse : Json → Except String StoryResV
  | Json.obj fields => do
    let title ← reqField fields "title" (vString "title")
    let opening ← reqField fields "opening" (vString "opening")
    let sceneJs ← reqField fields "scenes" (vArrayAny "scenes")
    let scenes ← sceneListParse sceneJs
    let closing ← reqField fields "closing" (vString "closing")
    let moral ← reqField fields "moral" (vString "moral")
    let goals ← reqField fields "educational_goals" (vArrayString "educational_goals")
    let total ← reqField fields "total_duration" (vNumber "total_duration")
    Except.ok ⟨title, opening, scenes, closing, moral, goals, total⟩
  | _ => Except.error "Expected object"

/-- Serialization of one validated scene in schema key order. -/
def sceneToJson (s : SceneV) : Json :=
  Json.obj [("setting", Json.str s.setting), ("action", Json.str s.action),
    ("dialogue", Json.str s.dialogue), ("duration", Json.num s.duration)]

/-- Serialization of a validated `StoryRes` value in schema key order. -/
def storyResToJson (r : StoryResV) : Json :=
  Json.obj [("title", Json.str r.title),
    ("opening", Json.str r.opening),
    ("scenes", Json.arr (r.scenes.map sceneToJson)),
    ("closing", Json.str r.closing),
    ("moral", Json.str r.moral),
    ("educational_goals", Json.arr (r.educational_goals.map Json.str)),
    ("total_duration", Json.num r.total_duration)]

/-- System message of the `/api/character` handler in `src/README.md`. -/
def charSystemPrompt : String :=
  "You are a character designer for STEM education. Create original, engaging characters that inspire curiosity about science, technology, engineering, and math."

/-- User message of the `/api/character` handler in `src/README.md`,
interpolating the validated request fields. -/
def charUserPrompt (b : CharacterReqV) : String :=
  "Design a character with these requirements: " ++ b.prompt ++ ". Target audience: " ++
    b.audience ++ ". Style: " ++ b.style ++ ". Constraints: " ++ b.constraints

/-- System message of the `/api/story` handler in `src/README.md`. -/
def storySystemPrompt : String :=
  "You are a storyteller for STEM education. Create engaging, educational stories that make complex concepts accessible to children."

/-- User message of the `/api/story` handler in `src/README.md`,
interpolating the validated request fields (note: `title` does not occur in
the template). -/
def storyUserPrompt (b : StoryReqV) : String :=
  "Create a story about " ++ b.topic ++ " for ages " ++ b.target_age ++ ". Duration: " ++
    numToString b.minutes ++ " minutes. Include these characters: " ++
    joinList ", " b.characters ++ ". Moral: " ++ b.moral ++ ". Educational goals: " ++
    String.intercalate ", " b.educational_goals

/-- The Model Gateway client handle (`new OpenAI({apiKey})`). -/
structure Client where
  apiKey : String
deriving DecidableEq, Repr

/-- `getOpenAI` from `src/README.md`: lazily construct the client on first
use, throwing when the credential is missing; the module-level mutable slot
`openai` is threaded explicitly as an `Option Client`. -/
def getOpenAI (apiKey : Option String) (st : Option Client) :
    Except String (Client × Option Client) :=
  match st with
  | some c => Except.ok (c, some c)
  | none =>
    match apiKey with
    | none => Except.error "OPENAI_API_KEY not set"
    | some k => Except.ok (⟨k⟩, some (⟨k⟩ : Client))

/-- Outcome of one non-streaming endpoint invocation: HTTP status, JSON
body, whether the Model Gateway was invoked, and the final value of the
module-level client slot. -/
structure HResult where
  status : Nat
  body : Json
  gatewayCalled : Bool
  finalClient : Option Client

/-- The structured JSON error body every catch block of the server emits. -/
def errJson (category details : String) : Json :=
  Json.obj [("error", Json.str category), ("details", Json.str details)]

/-- The `/api/character` POST handler from `src/README.md`: validate the
body, lazily get the client, call the gateway (a stubbed pure function from
the two prompts to the reply text), parse and re-validate the reply, with
the single catch block converting every thrown error to a 500 response.
The source guards the parsed reply with `if (!parsed) throw`, a JavaScript
truthiness test: both a parse failure (null) and a falsy parsed value
(null, 0, false, the empty string) throw "Failed to parse OpenAI response"
before the response schema ever runs. -/
def charHandler (apiKey : Option String) (gw : String → String → String)
    (reqBody : Json) (st : Option Client) : HResult :=
  match characterReqParse reqBody with
  | Except.error e => ⟨500, errJson "Character generation failed" e, false, st⟩
  | Except.ok b =>
    match getOpenAI apiKey st with
    | Except.error e => ⟨500, errJson "Character generation failed" e, false, st⟩
    | Except.ok (_, st2) =>
      let content := gw charSystemPrompt (charUserPrompt b)
      match safeParseJSON content with
      | none => ⟨500, errJson "Character generation failed" "Failed to parse OpenAI response", true, st2⟩
      | some parsed =>
        if jsTruthy parsed then
          match characterResParse parsed with
          | Except.error e => ⟨500, errJson "Character generation failed" e, true, st2⟩
          | Except.ok r => ⟨200, characterResToJson r, true, st2⟩
        else ⟨500, errJson "Character generation failed" "Failed to parse OpenAI response", true, st2⟩

/-- The `/api/story` POST handler from `src/README.md`, same shape as the
character handler with the story schemas and prompts, including the same
`if (!parsed) throw` truthiness guard on the parsed reply. -/
def storyHandler (apiKey : Option String) (gw : String → String → String)
    (reqBody : Json) (st : Option Client) : HResult :=
  match storyReqParse reqBody with
  | Except.error e => ⟨500, errJson "Story generation failed" e, false, st⟩
  | Except.ok b =>
    match getOpenAI apiKey st with
    | Except.error e => ⟨500, errJson "Story generation failed" e, false, st⟩
    | Except.ok (_, st2) =>
      let content := gw storySystemPrompt (storyUserPrompt b)
      match safeParseJSON content with
      | none => ⟨500, errJson "Story generation failed" "Failed to parse OpenAI response", true, st2⟩
      | some parsed =>
        if jsTruthy parsed then
          match storyResParse parsed with
          | Except.error e => ⟨500, errJson "Story generation failed" e, true, st2⟩
          | Except.ok r => ⟨200, storyResToJson r, true, st2⟩
        else ⟨500, errJson "Story generation failed" "Failed to parse OpenAI response", true, st2⟩

/-- Outcome of one `/api/ask` invocation: either a JSON error response, or
the Server-Sent-Events stream written to the caller together with the
connection-closed flag. -/
inductive AskResult where
  | jsonResp (status : Nat) (body : Json) (finalClient : Option Client) : AskResult
  | sse (frames : List String) (closed : Bool) (finalClient : Option Client) : AskResult

/-- One SSE data frame: `res.write` of "data: " plus the stringified
`\x7bcontent\x7d` object and a double newline. -/
def sseDataFrame (s : String) : String :=
  "data: " ++ jsonStringify (Json.obj [("content", Json.str s)]) ++ "\n\n"

/-- The terminal SSE frame the handler writes after the stream ends. -/
def sseDoneFrame : String := "data: [DONE]\n\n"

/-- The stream-relay loop of `/api/ask`: for each chunk, take
`chunk.choices[0]?.delta?.content` (absent modelled as `none`) and forward a
data frame when it is truthy (a non-empty string). -/
def askFrames : List (Option String) → List String
  | [] => []
  | none :: rest => askFrames rest
  | some s :: rest => if s = "" then askFrames rest else sseDataFrame s :: askFrames rest

/-- The `/api/ask` POST handler from `src/README.md`: destructure `question`
from the body (destructuring `null` throws, caught as a 500), reject a falsy
question with 400, otherwise get the client, send SSE headers, forward every
truthy fragment in arrival order, then write the terminal frame and close.
The stubbed streaming gateway is the list of per-chunk delta contents. -/
def askHandler (apiKey : Option String) (stream : List (Option String))
    (reqBody : Json) (st : Option Client) : AskResult :=
  match reqBody with
  | Json.null => AskResult.jsonResp 500 (errJson "Ask endpoint failed" "Cannot destructure") st
  | _ =>
    match Json.getF reqBody "question" with
    | none => AskResult.jsonResp 400 (Json.obj [("error", Json.str "Question is required")]) st
    | some qv =>
      if jsTruthy qv then
        match getOpenAI apiKey st with
        | Except.error e => AskResult.jsonResp 500 (errJson "Ask endpoint failed" e) st
        | Except.ok (_, st2) => AskResult.sse (askFrames stream ++ [sseDoneFrame]) true st2
      else AskResult.jsonResp 400 (Json.obj [("error", Json.str "Question is required")]) st

/-- `safeParseJSON` from the duplicate `src/server.js` applied to the
already-parsed request body value: `JSON.parse` coerces a non-string
argument through `String()` first. -/
def dupSafeParseJSON (v : Json) : Option Json :=
  match v with
  | Json.str s => parseJSON s
  | other => parseJSON (jsToString other)

/-- The `/api/character` POST handler of the duplicate `src/server.js`: it
re-parses the already-parsed body and returns 400 "Invalid JSON" when that
fails, then validates with the same `CharacterReq` schema.  Modelled from
the spec: the source file is cut off after the validation and client steps,
so the successful tail is modelled as one gateway call returning the reply
text, and the catch block as the usual 500 conversion. -/
def dupCharHandler (apiKey : Option String) (gw : String → String → String)
    (reqBody : Json) (st : Option Client) : HResult :=
  match dupSafeParseJSON reqBody with
  | none => ⟨400, Json.obj [("error", Json.str "Invalid JSON")], false, st⟩
  | some body =>
    match characterReqParse body with
    | Except.error e => ⟨500, errJson "Character generation failed" e, false, st⟩
    | Except.ok b =>
      match getOpenAI apiKey st with
      | Except.error e => ⟨500, errJson "Character generation failed" e, false, st⟩
      | Except.ok (_, st2) => ⟨200, Json.str (gw charSystemPrompt (charUserPrompt b)), true, st2⟩

/-! ## Helper lemmas -/

theorem except_bind_error {ε α β : Type} (e : ε) (f : α → Except ε β) :
    (Except.error e : Except ε α) >>= f = Except.error e := rfl

theorem except_bind_ok {ε α β : Type} (a : α) (f : α → Except ε β) :
    (Except.ok a : Except ε α) >>= f = f a := rfl

/-- A successful `getOpenAI` call always stores the very client it returns
back into the module slot. -/
theorem getOpenAI_ok_state (a : Option String) (st : Option Client) (c : Client)
    (st2 : Option Client) (h : getOpenAI a st = Except.ok (c, st2)) : st2 = some c := by
  cases st with
  | some c0 =>
    simp only [getOpenAI, Except.ok.injEq, Prod.mk.injEq] at h
    rw [← h.1, ← h.2]
  | none =>
    cases a with
    | none => simp [getOpenAI] at h
    | some k =>
      simp only [getOpenAI, Except.ok.injEq, Prod.mk.injEq] at h
      rw [← h.1, ← h.2]

/-- Calling `getOpenAI` on an already-populated slot returns that client and
leaves the slot unchanged. -/
theorem getOpenAI_cached (a : Option String) (c : Client) :
    getOpenAI a (some c) = Except.ok (c, some c) := rfl

/-! ## Claim C1 -/

/-- C1, as stated, is false on the code: a payload whose `prompt` has the
wrong type fails validation, and the response is a 500, not a 4xx-equivalent
response, although no gateway call is made. -/
theorem c1_counterexample :
    (charHandler (some "k") (fun _ _ => "") (Json.obj [("prompt", Json.num (mkRat 42 1))]) none).status = 500 ∧
    ¬ ((charHandler (some "k") (fun _ _ => "") (Json.obj [("prompt", Json.num (mkRat 42 1))]) none).status < 500) ∧
    (charHandler (some "k") (fun _ _ => "") (Json.obj [("prompt", Json.num (mkRat 42 1))]) none).gatewayCalled = false := by
  have hs : (charHandler (some "k") (fun _ _ => "") (Json.obj [("prompt", Json.num (mkRat 42 1))]) none).status = 500 := rfl
  refine ⟨hs, ?_, rfl⟩
  rw [hs]
  omega

/-- C1 amended: for every payload that fails validation, both POST handlers
surface the failure to the caller as an error response — with status 500
(the handler's single catch block), not a 4xx status — and do so without the
Model Gateway ever being invoked. -/
theorem c1_validation_error_is_500_before_gateway
    (a : Option String) (gw : String → String → String) (st : Option Client)
    (p : Json) (e : String) (hp : characterReqParse p = Except.error e)
    (p2 : Json) (e2 : String) (hs : storyReqParse p2 = Except.error e2) :
    charHandler a gw p st = ⟨500, errJson "Character generation failed" e, false, st⟩ ∧
    storyHandler a gw p2 st = ⟨500, errJson "Story generation failed" e2, false, st⟩ := by
  constructor
  · simp [charHandler, hp]
  · simp [storyHandler, hs]

/-- Witness for C1 amended at concrete invalid payloads for each endpoint. -/
theorem c1_witness :
    charHandler none (fun _ _ => "") (Json.obj [("prompt", Json.num (mkRat 42 1))]) none =
      ⟨500, errJson "Character generation failed" "Expected string at prompt", false, none⟩ ∧
    storyHandler none (fun _ _ => "") (Json.obj [("minutes", Json.num (mkRat 0 1))]) none =
      ⟨500, errJson "Story generation failed" "Number out of range at minutes", false, none⟩ :=
  c1_validation_error_is_500_before_gateway none (fun _ _ => "") none
    (Json.obj [("prompt", Json.num (mkRat 42 1))]) "Expected string at prompt" rfl
    (Json.obj [("minutes", Json.num (mkRat 0 1))]) "Number out of range at minutes" rfl

/-! ## Claim C2 -/

/-- C2: for every request to `/api/story` whose `minutes` field is present
but not an integer in [1, 15], validation fails and the stubbed gateway is
never invoked. -/
theorem c2_out_of_range_minutes_never_calls_gateway
    (a : Option String) (gw : String → String → String) (st : Option Client)
    (fields : List (String × Json)) (q : Rat)
    (hm : getField fields "minutes" = some (Json.num q))
    (hr : ¬ (q.den = 1 ∧ 1 ≤ q.num ∧ q.num ≤ 15)) :
    (∃ e, storyReqParse (Json.obj fields) = Except.error e) ∧
    (storyHandler a gw (Json.obj fields) st).gatewayCalled = false := by
  have hopt : ∀ d : Rat, optField fields "minutes" d (vIntRange "minutes" 1 15) =
      vIntRange "minutes" 1 15 (Json.num q) := by
    intro d
    unfold optField
    rw [hm]
  have hvir : ∃ e, vIntRange "minutes" 1 15 (Json.num q) = Except.error e := by
    unfold vIntRange
    by_cases hd : q.den = 1
    · by_cases hb : 1 ≤ q.num ∧ q.num ≤ 15
      · exact absurd ⟨hd, hb.1, hb.2⟩ hr
      · exact ⟨"Number out of range at minutes", by simp [hd, hb]⟩
    · exact ⟨"Expected integer at minutes", by simp [hd]⟩
  obtain ⟨em, hvir⟩ := hvir
  have hparse : ∃ e, storyReqParse (Json.obj fields) = Except.error e := by
    cases h1 : optField fields "title" "Adventure in Volcano Valley" (vString "title") with
    | error e1 => exact ⟨e1, by simp [storyReqParse, h1, except_bind_error]⟩
    | ok t =>
      cases h2 : optField fields "topic" "volcano science" (vString "topic") with
      | error e2 =>
        exact ⟨e2, by simp [storyReqParse, h1, h2, except_bind_error, except_bind_ok]⟩
      | ok tp =>
        cases h3 : optField fields "target_age" "6–10" (vString "target_age") with
        | error e3 =>
          exact ⟨e3, by simp [storyReqParse, h1, h2, h3, except_bind_error, except_bind_ok]⟩
        | ok ta =>
          exact ⟨em, by simp [storyReqParse, h1, h2, h3, hopt, hvir, except_bind_error, except_bind_ok]⟩
  obtain ⟨e, he⟩ := hparse
  exact ⟨⟨e, he⟩, by simp [storyHandler, he]⟩

/-- Witness for C2 at the concrete out-of-range input `minutes = 0`. -/
theorem c2_witness :
    (∃ e, storyReqParse (Json.obj [("minutes", Json.num (mkRat 0 1))]) = Except.error e) ∧
    (storyHandler none (fun _ _ => "") (Json.obj [("minutes", Json.num (mkRat 0 1))]) none).gatewayCalled = false :=
  c2_out_of_range_minutes_never_calls_gateway none (fun _ _ => "") none _ _ rfl (by decide)

/-! ## Claim C7 -/

/-- C7: the empty payload passes validation with every field carrying its
documented default, and the composed user prompt interpolates the default
prompt "Create a kid-friendly STEM character." together with the defaulted
audience, style and constraints. -/
theorem c7_empty_object_gets_all_defaults :
    characterReqParse (Json.obj []) =
      Except.ok ⟨"Create a kid-friendly STEM character.", "ages 6–10", "bright 2D cartoon",
        "original; no resemblance to existing IP"⟩ ∧
    charUserPrompt ⟨"Create a kid-friendly STEM character.", "ages 6–10", "bright 2D cartoon",
        "original; no resemblance to existing IP"⟩ =
      "Design a character with these requirements: Create a kid-friendly STEM character.. Target audience: ages 6–10. Style: bright 2D cartoon. Constraints: original; no resemblance to existing IP" :=
  ⟨rfl, rfl⟩

/-! ## Claim C10 -/

/-- C10: in the duplicate `src/server.js`, the `/api/character` handler runs
the already-parsed body through `JSON.parse` again; for every request whose
body is a JSON object the coerced text "[object Object]" fails to parse, so
the handler answers 400 "Invalid JSON" and neither validation nor the
gateway is ever reached (the empty object included, as the instance
`fields = []`). -/
theorem c10_dup_handler_rejects_every_object_body
    (a : Option String) (gw : String → String → String) (st : Option Client)
    (fields : List (String × Json)) :
    dupSafeParseJSON (Json.obj fields) = none ∧
    dupCharHandler a gw (Json.obj fields) st =
      ⟨400, Json.obj [("error", Json.str "Invalid JSON")], false, st⟩ := by
  have hp : dupSafeParseJSON (Json.obj fields) = none := rfl
  exact ⟨hp, by simp [dupCharHandler, hp]⟩

/-! ## Claim C3 -/

/-- C3, as stated, is false on the code: when the stub gateway returns text
that is not valid JSON, the endpoint does return a 500 server error and not
a 200, but the machine-readable category it emits is the handler's blanket
"Character generation failed" (with the parse failure in `details`), not a
`MalformedUpstreamResponse` category. -/
theorem c3_counterexample :
    charHandler (some "k") (fun _ _ => "not json") (Json.obj []) none =
      ⟨500, errJson "Character generation failed" "Failed to parse OpenAI response", true, some ⟨"k"⟩⟩ ∧
    "Character generation failed" ≠ "MalformedUpstreamResponse" :=
  ⟨rfl, by decide⟩

/-- C3 amended: for every gateway reply that is not valid JSON — or valid
JSON rejected by the `if (!parsed)` truthiness guard or by the response
schema — `/api/character` returns a 500 server error whose body is exactly
the structured error object (category "Character generation failed",
details carrying the failure reason: the parse-failure message for
unparsable or falsy replies, the schema error for truthy shape-mismatching
replies), so it never returns a 200 and never substitutes defaults for the
missing answer. -/
theorem c3_malformed_upstream_is_500_generic_error :
    (∀ (a : Option String) (gw : String → String → String) (st : Option Client) (p : Json)
      (b : CharacterReqV) (c : Client) (st2 : Option Client),
      characterReqParse p = Except.ok b →
      getOpenAI a st = Except.ok (c, st2) →
      safeParseJSON (gw charSystemPrompt (charUserPrompt b)) = none →
      charHandler a gw p st =
        ⟨500, errJson "Character generation failed" "Failed to parse OpenAI response", true, st2⟩) ∧
    (∀ (a : Option String) (gw : String → String → String) (st : Option Client) (p : Json)
      (b : CharacterReqV) (c : Client) (st2 : Option Client) (v : Json),
      characterReqParse p = Except.ok b →
      getOpenAI a st = Except.ok (c, st2) →
      safeParseJSON (gw charSystemPrompt (charUserPrompt b)) = some v →
      jsTruthy v = false →
      charHandler a gw p st =
        ⟨500, errJson "Character generation failed" "Failed to parse OpenAI response", true, st2⟩) ∧
    (∀ (a : Option String) (gw : String → String → String) (st : Option Client) (p : Json)
      (b : CharacterReqV) (c : Client) (st2 : Option Client) (v : Json) (e : String),
      characterReqParse p = Except.ok b →
      getOpenAI a st = Except.ok (c, st2) →
      safeParseJSON (gw charSystemPrompt (charUserPrompt b)) = some v →
      jsTruthy v = true →
      characterResParse v = Except.error e →
      charHandler a gw p st = ⟨500, errJson "Character generation failed" e, true, st2⟩) := by
  refine ⟨?_, ?_, ?_⟩
  · intro a gw st p b c st2 hp hg hj
    simp [charHandler, hp, hg, hj]
  · intro a gw st p b c st2 v hp hg hj ht
    simp [charHandler, hp, hg, hj, ht]
  · intro a gw st p b c st2 v e hp hg hj ht hv
    simp [charHandler, hp, hg, hj, ht, hv]

/-- Witness for C3 amended: a non-JSON reply, a falsy valid-JSON reply
("null"), and a truthy shape-mismatching reply, each at a concrete
instantiation. -/
theorem c3_witness :
    charHandler none (fun _ _ => "not json") (Json.obj []) (some ⟨"k"⟩) =
      ⟨500, errJson "Character generation failed" "Failed to parse OpenAI response", true, some ⟨"k"⟩⟩ ∧
    charHandler none (fun _ _ => "null") (Json.obj []) (some ⟨"k"⟩) =
      ⟨500, errJson "Character generation failed" "Failed to parse OpenAI response", true, some ⟨"k"⟩⟩ ∧
    charHandler none (fun _ _ => "\x7b\"name\":\"Volt\"\x7d") (Json.obj []) (some ⟨"k"⟩) =
      ⟨500, errJson "Character generation failed" "Required at species_or_type", true, some ⟨"k"⟩⟩ := by
  refine ⟨?_, ?_, ?_⟩
  · exact c3_malformed_upstream_is_500_generic_error.1 none (fun _ _ => "not json") (some ⟨"k"⟩)
      (Json.obj [])
      ⟨"Create a kid-friendly STEM character.", "ages 6–10", "bright 2D cartoon", "original; no resemblance to existing IP"⟩
      ⟨"k"⟩ (some ⟨"k"⟩) rfl rfl rfl
  · exact c3_malformed_upstream_is_500_generic_error.2.1 none (fun _ _ => "null") (some ⟨"k"⟩)
      (Json.obj [])
      ⟨"Create a kid-friendly STEM character.", "ages 6–10", "bright 2D cartoon", "original; no resemblance to existing IP"⟩
      ⟨"k"⟩ (some ⟨"k"⟩) Json.null rfl rfl rfl rfl
  · exact c3_malformed_upstream_is_500_generic_error.2.2 none (fun _ _ => "\x7b\"name\":\"Volt\"\x7d") (some ⟨"k"⟩)
      (Json.obj [])
      ⟨"Create a kid-friendly STEM character.", "ages 6–10", "bright 2D cartoon", "original; no resemblance to existing IP"⟩
      ⟨"k"⟩ (some ⟨"k"⟩) (Json.obj [("name", Json.str "Volt")]) "Required at species_or_type" rfl rfl rfl rfl rfl

/-! ## Claim C4 -/

/-- C4: with a streaming gateway that emits "Hel" then "lo" and ends, a POST
to `/api/ask` with any valid (non-empty) question writes exactly two data
frames with contents "Hel" then "lo" in that order, then the terminal
`[DONE]` frame — syntactically distinguishable from the data frames — and
then closes the connection. -/
theorem c4_stream_frames_exact_order (k q : String) (hq : q ≠ "") :
    askHandler (some k) [some "Hel", some "lo"] (Json.obj [("question", Json.str q)]) none =
      AskResult.sse [sseDataFrame "Hel", sseDataFrame "lo", sseDoneFrame] true (some ⟨k⟩) ∧
    sseDataFrame "Hel" = "data: \x7b\"content\":\"Hel\"\x7d\n\n" ∧
    sseDataFrame "lo" = "data: \x7b\"content\":\"lo\"\x7d\n\n" ∧
    sseDoneFrame = "data: [DONE]\n\n" := by
  refine ⟨?_, rfl, rfl, rfl⟩
  simp [askHandler, Json.getF, getField, jsTruthy, hq, getOpenAI, askFrames]

/-- Witness for C4 at the concrete question "why?". -/
theorem c4_witness :
    askHandler (some "k") [some "Hel", some "lo"] (Json.obj [("question", Json.str "why?")]) none =
      AskResult.sse [sseDataFrame "Hel", sseDataFrame "lo", sseDoneFrame] true (some ⟨"k"⟩) :=
  (c4_stream_frames_exact_order "k" "why?" (by decide)).1

/-! ## Claim C5 -/

/-- A gateway reply that is a valid `CharacterRes` document carrying every
schema field, serialized in schema key order. -/
def c5FullText : String :=
  "\x7b\"name\":\"Volt\",\"species_or_type\":\"robot\",\"visual_description\":\"small blue robot\",\"personality\":\"curious\",\"catchphrases\":[\"zap\"],\"strengths\":[\"math\"],\"quirks\":[\"beeps\"],\"stem_domain\":\"electricity\",\"color_palette\":[\"blue\"],\"do_not_copy\":\"none\"\x7d"

/-- The parsed form of `c5FullText`. -/
def c5FullDoc : Json :=
  Json.obj [("name", Json.str "Volt"), ("species_or_type", Json.str "robot"),
    ("visual_description", Json.str "small blue robot"), ("personality", Json.str "curious"),
    ("catchphrases", Json.arr [Json.str "zap"]), ("strengths", Json.arr [Json.str "math"]),
    ("quirks", Json.arr [Json.str "beeps"]), ("stem_domain", Json.str "electricity"),
    ("color_palette", Json.arr [Json.str "blue"]), ("do_not_copy", Json.str "none")]

/-- The validated form of `c5FullDoc`. -/
def c5FullRes : CharacterResV :=
  ⟨"Volt", "robot", "small blue robot", "curious", ["zap"], ["math"], ["beeps"],
    "electricity", ["blue"], "none"⟩

/-- A gateway reply that is a valid `CharacterRes` document (the optional
`catchphrases` field is simply absent). -/
def c5MissingText : String :=
  "\x7b\"name\":\"Volt\",\"species_or_type\":\"robot\",\"visual_description\":\"small blue robot\",\"personality\":\"curious\",\"strengths\":[\"math\"],\"quirks\":[\"beeps\"],\"stem_domain\":\"electricity\",\"color_palette\":[\"blue\"],\"do_not_copy\":\"none\"\x7d"

/-- The parsed form of `c5MissingText`. -/
def c5MissingDoc : Json :=
  Json.obj [("name", Json.str "Volt"), ("species_or_type", Json.str "robot"),
    ("visual_description", Json.str "small blue robot"), ("personality", Json.str "curious"),
    ("strengths", Json.arr [Json.str "math"]),
    ("quirks", Json.arr [Json.str "beeps"]), ("stem_domain", Json.str "electricity"),
    ("color_palette", Json.arr [Json.str "blue"]), ("do_not_copy", Json.str "none")]

set_option maxRecDepth 4000 in
/-- C5, as stated, is false on the code: a stub gateway returning a fixed
valid `CharacterResult` document that omits the optional `catchphrases`
field gets a 200, but the body is not that exact document — the endpoint
adds `catchphrases: []` (zod fills the documented default). -/
theorem c5_counterexample :
    safeParseJSON c5MissingText = some c5MissingDoc ∧
    (∃ r, characterResParse c5MissingDoc = Except.ok r) ∧
    (charHandler (some "k") (fun _ _ => c5MissingText) (Json.obj []) none).status = 200 ∧
    (charHandler (some "k") (fun _ _ => c5MissingText) (Json.obj []) none).body ≠ c5MissingDoc := by
  refine ⟨rfl, ⟨_, rfl⟩, rfl, ?_⟩
  intro h
  have h2 : some (Json.arr []) = (none : Option Json) := by
    calc some (Json.arr [])
        = Json.getF ((charHandler (some "k") (fun _ _ => c5MissingText) (Json.obj []) none).body) "catchphrases" := rfl
      _ = Json.getF c5MissingDoc "catchphrases" := by rw [h]
      _ = none := rfl
  exact Option.noConfusion h2

/-- C5 amended: when the stub gateway's fixed reply is a valid
`CharacterResult` document that carries exactly the schema's fields in the
schema's shape (so re-serializing its validated form reproduces it), the
endpoint returns that exact document unchanged with a 200; documents
omitting an optional field get the default filled in instead. -/
theorem c5_roundtrip_exact_schema_shape
    (a : Option String) (gw : String → String → String) (st : Option Client) (p : Json)
    (b : CharacterReqV) (c : Client) (st2 : Option Client) (d : Json) (r : CharacterResV)
    (hp : characterReqParse p = Except.ok b)
    (hg : getOpenAI a st = Except.ok (c, st2))
    (hj : safeParseJSON (gw charSystemPrompt (charUserPrompt b)) = some d)
    (hv : characterResParse d = Except.ok r)
    (hd : characterResToJson r = d) :
    charHandler a gw p st = ⟨200, d, true, st2⟩ := by
  have ht : jsTruthy d = true := by
    rw [← hd]
    rfl
  simp [charHandler, hp, hg, hj, ht, hv, hd]

set_option maxRecDepth 4000 in
/-- Witness for C5 amended: the full ten-field document round-trips
unchanged. -/
theorem c5_witness :
    charHandler (some "k") (fun _ _ => c5FullText) (Json.obj []) none =
      ⟨200, c5FullDoc, true, some ⟨"k"⟩⟩ :=
  c5_roundtrip_exact_schema_shape (some "k") (fun _ _ => c5FullText) none (Json.obj [])
    ⟨"Create a kid-friendly STEM character.", "ages 6–10", "bright 2D cartoon", "original; no resemblance to existing IP"⟩
    ⟨"k"⟩ (some ⟨"k"⟩) c5FullDoc c5FullRes rfl rfl rfl rfl rfl

/-! ## Claim C6 -/

theorem string_append_assoc (a b c : String) : a ++ b ++ c = a ++ (b ++ c) := by
  cases a with
  | mk d1 =>
    cases b with
    | mk d2 =>
      cases c with
      | mk d3 =>
        show String.mk ((d1 ++ d2) ++ d3) = String.mk (d1 ++ (d2 ++ d3))
        rw [List.append_assoc]

/-- C6, as stated, is false on the code: the story user prompt does not
interpolate the request `title` — two validated requests differing only in
their title compose the identical prompt. -/
theorem c6_counterexample :
    storyUserPrompt ⟨"Title One", "volcano science", "6–10", mkRat 3 1, [], "Curiosity + safety", []⟩ =
      storyUserPrompt ⟨"Title Two", "volcano science", "6–10", mkRat 3 1, [], "Curiosity + safety", []⟩ ∧
    ("Title One" : String) ≠ "Title Two" :=
  ⟨rfl, by decide⟩

theorem string_append_empty (s : String) : s ++ "" = s := by
  cases s with
  | mk d =>
    show String.mk (d ++ []) = String.mk d
    rw [List.append_nil]

/-- C6 amended: the prompt composer is a pure, deterministic function of the
validated request; the story user prompt interpolates topic, target age,
minutes (in its decimal rendering), characters (joined with ", "), moral
and educational goals (joined with ", ") verbatim, but not the title — the
prompt depends only on the non-title fields (first conjunct), and each of
the six interpolated values occurs verbatim inside it (remaining
conjuncts). -/
theorem c6_composer_deterministic_title_not_used :
    (∀ b1 b2 : StoryReqV,
      b1.topic = b2.topic → b1.target_age = b2.target_age → b1.minutes = b2.minutes →
      b1.characters = b2.characters → b1.moral = b2.moral →
      b1.educational_goals = b2.educational_goals →
      storyUserPrompt b1 = storyUserPrompt b2) ∧
    (∀ b : StoryReqV, ∃ pre post : String, storyUserPrompt b = pre ++ b.topic ++ post) ∧
    (∀ b : StoryReqV, ∃ pre post : String, storyUserPrompt b = pre ++ b.target_age ++ post) ∧
    (∀ b : StoryReqV, ∃ pre post : String,
      storyUserPrompt b = pre ++ numToString b.minutes ++ post) ∧
    (∀ b : StoryReqV, ∃ pre post : String,
      storyUserPrompt b = pre ++ joinList ", " b.characters ++ post) ∧
    (∀ b : StoryReqV, ∃ pre post : String, storyUserPrompt b = pre ++ b.moral ++ post) ∧
    (∀ b : StoryReqV, ∃ pre post : String,
      storyUserPrompt b = pre ++ String.intercalate ", " b.educational_goals ++ post) := by
  refine ⟨?_, ?_, ?_, ?_, ?_, ?_, ?_⟩
  · intro b1 b2 h1 h2 h3 h4 h5 h6
    unfold storyUserPrompt
    rw [h1, h2, h3, h4, h5, h6]
  · intro b
    refine ⟨"Create a story about ",
      " for ages " ++ (b.target_age ++ (". Duration: " ++ (numToString b.minutes ++
        (" minutes. Include these characters: " ++ (joinList ", " b.characters ++
        (". Moral: " ++ (b.moral ++ (". Educational goals: " ++
        String.intercalate ", " b.educational_goals)))))))), ?_⟩
    simp [storyUserPrompt, string_append_assoc]
  · intro b
    refine ⟨"Create a story about " ++ b.topic ++ " for ages ",
      ". Duration: " ++ (numToString b.minutes ++
        (" minutes. Include these characters: " ++ (joinList ", " b.characters ++
        (". Moral: " ++ (b.moral ++ (". Educational goals: " ++
        String.intercalate ", " b.educational_goals)))))), ?_⟩
    simp [storyUserPrompt, string_append_assoc]
  · intro b
    refine ⟨"Create a story about " ++ b.topic ++ " for ages " ++ b.target_age ++ ". Duration: ",
      " minutes. Include these characters: " ++ (joinList ", " b.characters ++
        (". Moral: " ++ (b.moral ++ (". Educational goals: " ++
        String.intercalate ", " b.educational_goals)))), ?_⟩
    simp [storyUserPrompt, string_append_assoc]
  · intro b
    refine ⟨"Create a story about " ++ b.topic ++ " for ages " ++ b.target_age ++ ". Duration: " ++
      numToString b.minutes ++ " minutes. Include these characters: ",
      ". Moral: " ++ (b.moral ++ (". Educational goals: " ++
        String.intercalate ", " b.educational_goals)), ?_⟩
    simp [storyUserPrompt, string_append_assoc]
  · intro b
    refine ⟨"Create a story about " ++ b.topic ++ " for ages " ++ b.target_age ++ ". Duration: " ++
      numToString b.minutes ++ " minutes. Include these characters: " ++
      joinList ", " b.characters ++ ". Moral: ",
      ". Educational goals: " ++ String.intercalate ", " b.educational_goals, ?_⟩
    simp [storyUserPrompt, string_append_assoc]
  · intro b
    refine ⟨"Create a story about " ++ b.topic ++ " for ages " ++ b.target_age ++ ". Duration: " ++
      numToString b.minutes ++ " minutes. Include these characters: " ++
      joinList ", " b.characters ++ ". Moral: " ++ b.moral ++ ". Educational goals: ",
      "", ?_⟩
    simp [storyUserPrompt, string_append_assoc, string_append_empty]

/-- Witness for C6 amended at two concrete validated requests that agree on
every non-title field. -/
theorem c6_witness :
    storyUserPrompt ⟨"A", "magnets", "6–10", mkRat 2 1, [], "Be careful", ["goal one"]⟩ =
      storyUserPrompt ⟨"B", "magnets", "6–10", mkRat 2 1, [], "Be careful", ["goal one"]⟩ ∧
    (∃ pre post : String,
      storyUserPrompt ⟨"A", "magnets", "6–10", mkRat 2 1, [], "Be careful", ["goal one"]⟩ =
        pre ++ (StoryReqV.mk "A" "magnets" "6–10" (mkRat 2 1) [] "Be careful" ["goal one"]).topic ++ post) :=
  ⟨c6_composer_deterministic_title_not_used.1
      ⟨"A", "magnets", "6–10", mkRat 2 1, [], "Be careful", ["goal one"]⟩
      ⟨"B", "magnets", "6–10", mkRat 2 1, [], "Be careful", ["goal one"]⟩
      rfl rfl rfl rfl rfl rfl,
    c6_composer_deterministic_title_not_used.2.1
      ⟨"A", "magnets", "6–10", mkRat 2 1, [], "Be careful", ["goal one"]⟩⟩

/-! ## Claim C8 -/

/-- C8: repeating the same request against the same deterministic stub
gateway, threading the only module-level state (the client slot) from the
first run into the second, yields an identical response — equal status,
equal body, and hence byte-identical serialized body — for both the
character and the story endpoint. -/
theorem c8_repeat_request_identical_response
    (a : Option String) (gw gws : String → String → String) (p ps : Json) (st : Option Client) :
    ((charHandler a gw p st).status = (charHandler a gw p (charHandler a gw p st).finalClient).status ∧
     (charHandler a gw p st).body = (charHandler a gw p (charHandler a gw p st).finalClient).body ∧
     jsonStringify (charHandler a gw p st).body =
       jsonStringify (charHandler a gw p (charHandler a gw p st).finalClient).body) ∧
    ((storyHandler a gws ps st).status = (storyHandler a gws ps (storyHandler a gws ps st).finalClient).status ∧
     (storyHandler a gws ps st).body = (storyHandler a gws ps (storyHandler a gws ps st).finalClient).body ∧
     jsonStringify (storyHandler a gws ps st).body =
       jsonStringify (storyHandler a gws ps (storyHandler a gws ps st).finalClient).body) := by
  constructor
  · cases hp : characterReqParse p with
    | error e => simp [charHandler, hp]
    | ok b =>
      cases hg : getOpenAI a st with
      | error e => simp [charHandler, hp, hg]
      | ok pr =>
        obtain ⟨c, st2⟩ := pr
        have hst2 : st2 = some c := getOpenAI_ok_state a st c st2 hg
        have hg2 : getOpenAI a st2 = Except.ok (c, st2) := by
          rw [hst2]
          exact getOpenAI_cached a c
        cases hj : safeParseJSON (gw charSystemPrompt (charUserPrompt b)) with
        | none => simp [charHandler, hp, hg, hg2, hj]
        | some v =>
          cases ht : jsTruthy v with
          | false => simp [charHandler, hp, hg, hg2, hj, ht]
          | true =>
            cases hv : characterResParse v with
            | error e => simp [charHandler, hp, hg, hg2, hj, ht, hv]
            | ok r => simp [charHandler, hp, hg, hg2, hj, ht, hv]
  · cases hp : storyReqParse ps with
    | error e => simp [storyHandler, hp]
    | ok b =>
      cases hg : getOpenAI a st with
      | error e => simp [storyHandler, hp, hg]
      | ok pr =>
        obtain ⟨c, st2⟩ := pr
        have hst2 : st2 = some c := getOpenAI_ok_state a st c st2 hg
        have hg2 : getOpenAI a st2 = Except.ok (c, st2) := by
          rw [hst2]
          exact getOpenAI_cached a c
        cases hj : safeParseJSON (gws storySystemPrompt (storyUserPrompt b)) with
        | none => simp [storyHandler, hp, hg, hg2, hj]
        | some v =>
          cases ht : jsTruthy v with
          | false => simp [storyHandler, hp, hg, hg2, hj, ht]
          | true =>
            cases hv : storyResParse v with
            | error e => simp [storyHandler, hp, hg, hg2, hj, ht, hv]
            | ok r => simp [storyHandler, hp, hg, hg2, hj, ht, hv]

/-! ## Claim C9 -/

/-- A sequence of `n` consecutive `getOpenAI` calls threading the
module-level client slot, collecting each call's outcome. -/
def runCalls (a : Option String) : Nat → Option Client → List (Except String Client) × Option Client
  | 0, st => ([], st)
  | n + 1, st =>
    match getOpenAI a st with
    | Except.error e =>
      let r := runCalls a n st
      (Except.error e :: r.1, r.2)
    | Except.ok (c, st2) =>
      let r := runCalls a n st2
      (Except.ok c :: r.1, r.2)

/-- Once the slot holds a client, every further call returns that same
handle and leaves the slot untouched. -/
theorem runCalls_cached (a : Option String) (c : Client) :
    ∀ n, runCalls a n (some c) = (List.replicate n (Except.ok c), some c) := by
  intro n
  induction n with
  | zero => rfl
  | succ n ih => simp [runCalls, getOpenAI_cached, ih, List.replicate_succ]

/-- C9: with the credential set, the first `getOpenAI` call constructs the
client and every later call in the sequence returns that same
already-constructed handle, never reconstructing it or changing the slot:
all `n + 1` outcomes are the one client built from the key. -/
theorem c9_client_constructed_once (k : String) (n : Nat) :
    getOpenAI (some k) none = Except.ok (⟨k⟩, some (⟨k⟩ : Client)) ∧
    runCalls (some k) (n + 1) none =
      (List.replicate (n + 1) (Except.ok (⟨k⟩ : Client)), some (⟨k⟩ : Client)) := by
  refine ⟨rfl, ?_⟩
  have h1 : getOpenAI (some k) none = Except.ok ((⟨k⟩ : Client), some (⟨k⟩ : Client)) := rfl
  simp [runCalls, h1, runCalls_cached (some k) ⟨k⟩ n, List.replicate_succ]

/-! ## Sanity checks for the modelled platform primitives -/

example : parseJSON "[object Object]" = none := by rfl
example : takeDigits "25x".toList = ([2, 5], ['x']) := by rfl
example : natOfDigits [2, 5] = 25 := by rfl
example : mkRat 25 10 = mkRat 5 2 := by rfl
example : parseNumber "2.5".toList = some (mkRat 5 2, []) := by rfl
example : parseNumber "1".toList = some (mkRat 1 1, []) := by rfl
example : parseNumber "-3e2".toList = some (mkRat (-300) 1, []) := by rfl
example : parseJSON "\x7b\"a\":1\x7d" = some (Json.obj [("a", Json.num (mkRat 1 1))]) := by rfl
example : parseJSON "[1,2]" = some (Json.arr [Json.num (mkRat 1 1), Json.num (mkRat 2 1)]) := by rfl
example : parseJSON "[1,2]" = some (Json.arr [Json.num 1, Json.num 2]) := by rfl
